import Mathlib

/-!
Verification of the funcparser combinator library (src/run.py).

The library is a backtracking recursive-descent parsing toolkit over a
seekable character cursor (Python io.StringIO).  We embed it shallowly:

* `Stream` models the cursor (the character sequence plus the current
  offset); `read1`/`readN`/`seek` model `stream.read(1)`, `stream.read(n)`
  and `stream.seek(pos)` of an in-memory text stream.
* Python exceptions become an explicit `Except Failure` value paired with
  the stream state at the moment the exception is raised: `SyntaxError`
  becomes `Failure.noMatch` (with its message) and `EOFError` becomes
  `Failure.endOfInput`.
* A parser `Cursor -> T` that may raise becomes `Parser α := Stream →
  Except Failure α × Stream`.
* The loops that may fail to terminate (`zero_or_more`, the grammar's
  mutual recursion `expression → sum → value → expression`) take explicit
  fuel and return `Option`, where `none` means the fuel ran out; all
  primitive parsers always return `some`.  Divergence of the source is
  expressed as `= none` for every fuel.
* The character-consuming inner loops of `number` and `whitespace`
  advance the cursor on every iteration, so they are given the structural
  bound `remaining characters + 1`, which they can never exhaust.
-/

namespace FP

/-- Seekable cursor over an in-memory character sequence: the buffered
contents plus the current offset (Python `StringIO`: `tell`/`seek`/`read`). -/
structure Stream where
  data : List Char
  pos : Nat
  deriving DecidableEq, Repr

/-- Failure kinds of run.py: `SyntaxError(message)` (a recoverable
no-match) and `EOFError` (input exhausted during a read). -/
inductive Failure where
  | noMatch (message : String)
  | endOfInput
  deriving DecidableEq, Repr

/-- Result of running a parser: the returned value or the raised failure,
together with the stream state at that moment. -/
abbrev PResult (α : Type) := Except Failure α × Stream

/-- A parser in run.py is a function from the stream to a value,
which may raise; loops are modelled separately with fuel. -/
abbrev Parser (α : Type) := Stream → PResult α

/-- A fueled parser: `none` means the modelling fuel was exhausted
(the source would still be running). -/
abbrev OptParser (α : Type) := Stream → Option (PResult α)

/-- Fresh cursor over the given text, offset 0. -/
def mkStream (s : String) : Stream := ⟨s.data, 0⟩

/-- Python `stream.seek(position)`. -/
def seek (position : Nat) (s : Stream) : Stream := ⟨s.data, position⟩

/-- Python `stream.read(1)`: the next character as a one-character string,
or the empty string when the cursor is exhausted (no offset change then). -/
def read1 (s : Stream) : String × Stream :=
  match s.data[s.pos]? with
  | some c => (String.mk [c], ⟨s.data, s.pos + 1⟩)
  | none => ("", s)

/-- Python `stream.read(n)`: up to `n` characters, advancing the offset by
the number of characters actually read. -/
def readN (n : Nat) (s : Stream) : String × Stream :=
  (String.mk ((s.data.drop s.pos).take n),
   ⟨s.data, s.pos + ((s.data.drop s.pos).take n).length⟩)

/-- Python `str.isdigit` on the strings fed by `match` (length at most 1):
nonempty and all characters decimal digits. -/
def pyIsDigit (s : String) : Bool := !s.isEmpty && s.data.all Char.isDigit

/-- Python `str.isspace` on the strings fed by `match` (length at most 1). -/
def pyIsSpace (s : String) : Bool := !s.isEmpty && s.data.all Char.isWhitespace

/-- Message of the `SyntaxError` raised by `match`; run.py interpolates
`repr(character)`, which wraps the character in quotes. -/
def couldNotMatch (character : String) : String :=
  "Could not match \x27" ++ character ++ "\x27 with the given predicate"

/-- The primitive matcher `match` of run.py (`matchF` because `match` is a
Lean keyword).  Record the offset, read one character, and test the
predicate on the read result (the empty string when exhausted, exactly as
`stream.read(1)` returns it).  On predicate success return the character,
seeking back first when `rb` (the `rollback=True` peek flag) is set.  On
predicate failure with a nonempty read, seek back and raise `SyntaxError`;
on an empty read raise `EOFError`. -/
def matchF (predicate : String → Bool) (rb : Bool) (s : Stream) : PResult String :=
  if predicate (read1 s).1 then
    if rb then (.ok (read1 s).1, seek s.pos (read1 s).2)
    else (.ok (read1 s).1, (read1 s).2)
  else if (read1 s).1 ≠ "" then
    (.error (.noMatch (couldNotMatch (read1 s).1)), seek s.pos (read1 s).2)
  else
    (.error .endOfInput, (read1 s).2)

/-- The `rollback` decorator of run.py: record the offset, run the parser;
a `SyntaxError` is re-raised after seeking back to the recorded offset,
an `EOFError` is re-raised with the stream left where the parser put it. -/
def rollback (parser : Parser α) : Parser α := fun stream =>
  match parser stream with
  | (.ok v, s') => (.ok v, s')
  | (.error (.noMatch m), s') => (.error (.noMatch m), seek stream.pos s')
  | (.error .endOfInput, s') => (.error .endOfInput, s')

/-- The `maybe` combinator of run.py: run the parser once; both failure
kinds are converted into the absent marker `None` (here `Option.none`),
with the stream left wherever the parser put it. -/
def maybe (parser : Parser α) : Parser (Option α) := fun stream =>
  match parser stream with
  | (.ok v, s') => (.ok (some v), s')
  | (.error _, s') => (.ok none, s')

/-- Body of the `keyword` parser of run.py (the inner `parse` before the
decorator): read `len(value)` characters (fewer at exhaustion) and compare
with the literal; on mismatch raise `SyntaxError` naming actual and
expected content. -/
def keyword_raw (value : String) : Parser String := fun stream =>
  if value = (readN value.length stream).1 then
    (.ok value, (readN value.length stream).2)
  else
    (.error (.noMatch ("Expected " ++ (readN value.length stream).1 ++
      " to match " ++ value)),
     (readN value.length stream).2)

/-- The `keyword` parser of run.py: its body wrapped in `rollback`. -/
def keyword (value : String) : Parser String := rollback (keyword_raw value)

/-- Python `int` on the runs of matched digit characters (run.py's
`int("".join(_result()))`).  On the ASCII digits admitted by
`Char.isDigit` the conversion always succeeds, so the `ValueError`
branch of run.py is unreachable in the model. -/
def pyInt (s : String) : Int :=
  Int.ofNat (s.data.foldl (fun n c => 10 * n + (c.toNat - 48)) 0)

/-- Digit-consuming loop of `number` after the mandatory first digit:
keep matching digits; `EOFError` ends the literal cleanly; on a
`SyntaxError` perform the peek-only whitespace check, whose success ends
the literal and whose failure propagates (run.py lines 137-144).  The
fuel is the structural bound `remaining + 1`: every recursive call has
consumed one character, so the `0` case is never reached when the loop is
entered with that bound. -/
def digitsLoop : Nat → Stream → String → PResult String
  | 0, s, acc => (.ok acc, s)
  | fuel+1, s, acc =>
    match matchF pyIsDigit false s with
    | (.ok c, s') => digitsLoop fuel s' (acc ++ c)
    | (.error .endOfInput, s') => (.ok acc, s')
    | (.error (.noMatch _), s') =>
      match matchF pyIsSpace true s' with
      | (.ok _, s'') => (.ok acc, s'')
      | (.error e, s'') => (.error e, s'')

/-- The `number` parser of run.py: one mandatory digit, then `digitsLoop`;
the joined digits are converted by `int`.  Wrapped in `rollback`. -/
def number : Parser Int :=
  rollback (fun stream =>
    match matchF pyIsDigit false stream with
    | (.error e, s₁) => (.error e, s₁)
    | (.ok c, s₁) =>
      match digitsLoop (s₁.data.length - s₁.pos + 1) s₁ c with
      | (.ok ds, s₂) => (.ok (pyInt ds), s₂)
      | (.error e, s₂) => (.error e, s₂))

/-- Mandatory part of `whitespace`: consume exactly `n` whitespace
characters; any failure (either kind) during this portion becomes
`SyntaxError("Not enough whitespace to match.")`. -/
def wsMandatory : Nat → Stream → String → PResult String
  | 0, s, acc => (.ok acc, s)
  | n+1, s, acc =>
    match matchF pyIsSpace false s with
    | (.ok c, s') => wsMandatory n s' (acc ++ c)
    | (.error _, s') => (.error (.noMatch "Not enough whitespace to match."), s')

/-- Greedy tail of `whitespace`: keep consuming whitespace, stopping
silently on a failure of either kind.  Fuel is the structural bound
`remaining + 1`, never exhausted since success consumes a character. -/
def wsTail : Nat → Stream → String → PResult String
  | 0, s, acc => (.ok acc, s)
  | fuel+1, s, acc =>
    match matchF pyIsSpace false s with
    | (.ok c, s') => wsTail fuel s' (acc ++ c)
    | (.error _, s') => (.ok acc, s')

/-- The `whitespace` parser of run.py: the mandatory portion, then the
greedy tail; wrapped in `rollback`. -/
def whitespace (minimum_count : Nat) : Parser String :=
  rollback (fun stream =>
    match wsMandatory minimum_count stream "" with
    | (.error e, s₁) => (.error e, s₁)
    | (.ok acc, s₁) => wsTail (s₁.data.length - s₁.pos + 1) s₁ acc)

/-- The `concatenation` combinator of run.py: run the parsers in order
against the same stream, collecting the successes in order; the first
failure of either kind aborts and propagates, with no rollback. -/
def concatenation : List (OptParser α) → OptParser (List α)
  | [] => fun s => some (.ok [], s)
  | p :: ps => fun s =>
    match p s with
    | none => none
    | some (.error e, s') => some (.error e, s')
    | some (.ok v, s') =>
      match concatenation ps s' with
      | none => none
      | some (.error e, s'') => some (.error e, s'')
      | some (.ok vs, s'') => some (.ok (v :: vs), s'')

/-- The `alternation` combinator of run.py: try each candidate in turn;
a candidate's failure of either kind is swallowed (the bare `except:`)
and the next candidate runs against the stream as the failed candidate
left it (the combinator itself never seeks); when all candidates fail,
raise `SyntaxError("Exhausted all parsers")`. -/
def alternation : List (OptParser α) → OptParser α
  | [] => fun s => some (.error (.noMatch "Exhausted all parsers"), s)
  | p :: ps => fun s =>
    match p s with
    | none => none
    | some (.ok v, s') => some (.ok v, s')
    | some (.error _, s') => alternation ps s'

/-- Loop of `zero_or_more`: repeat the parser, appending successes;
a `SyntaxError` stops the loop and the accumulated list is returned as
success; an `EOFError` is not caught and propagates. -/
def zero_or_more_go (p : OptParser α) : Nat → Stream → List α → Option (PResult (List α))
  | 0, _, _ => none
  | fuel+1, s, acc =>
    match p s with
    | none => none
    | some (.ok v, s') => zero_or_more_go p fuel s' (acc ++ [v])
    | some (.error (.noMatch _), s') => some (.ok acc, s')
    | some (.error .endOfInput, s') => some (.error .endOfInput, s')

/-- The `zero_or_more` combinator of run.py (`list(_result())` is eager,
so the whole loop runs at call time). -/
def zero_or_more (p : OptParser α) (fuel : Nat) : OptParser (List α) :=
  fun s => zero_or_more_go p fuel s []

/-- Prepend an already-accumulated prefix to a repetition result
(bookkeeping for reasoning about `zero_or_more_go`). -/
def accMap (acc : List α) : Option (PResult (List α)) → Option (PResult (List α))
  | none => none
  | some (.ok l, s) => some (.ok (acc ++ l), s)
  | some (.error e, s) => some (.error e, s)

/-- A Python generator object as produced by calling `one_or_more(P)`'s
inner `parse(stream)`: nothing has run yet; the generator closes over the
parser and the stream. -/
structure Gen (α : Type) where
  parser : Parser α
  stream : Stream

/-- The `one_or_more` combinator of run.py at call time: `parse` is a
generator function, so invoking it builds a generator and returns it at
once, reading nothing and raising nothing. -/
def one_or_more (p : Parser α) : Parser (Gen α) := fun stream =>
  (.ok ⟨p, stream⟩, stream)

/-- Body of the `one_or_more` generator, run when the generator is
consumed: repeat the parser, stopping on the first failure of either
kind; with zero successes raise
`SyntaxError("Expected one or more tokens")`. -/
def one_or_more_go (p : Parser α) : Nat → Stream → List α → Option (PResult (List α))
  | 0, _, _ => none
  | fuel+1, s, acc =>
    match p s with
    | (.ok v, s') => one_or_more_go p fuel s' (acc ++ [v])
    | (.error _, s') =>
      if acc.isEmpty then some (.error (.noMatch "Expected one or more tokens"), s')
      else some (.ok acc, s')

/-- Consuming a `one_or_more` generator (Python `list(...)`). -/
def listGen (fuel : Nat) (g : Gen α) : Option (PResult (List α)) :=
  one_or_more_go g.parser fuel g.stream []

/-- Parse-tree values of run.py: the heterogeneous nested lists built by
the grammar hold integers, strings and nested lists. -/
inductive Value where
  | int (n : Int)
  | str (s : String)
  | list (vs : List Value)

/-- Inject a plain parser into the fueled grammar level, wrapping its
result as a parse-tree value. -/
def liftV (p : Parser α) (f : α → Value) : OptParser Value := fun s =>
  match p s with
  | (.ok v, s') => some (.ok (f v), s')
  | (.error e, s') => some (.error e, s')

/-- Inject a plain parser into the fueled level unchanged. -/
def liftO (p : Parser α) : OptParser α := fun s => some (p s)

/-- Map over the success value of a fueled parser (used to wrap the
heterogeneous lists of the grammar as parse-tree values). -/
def mapO (f : α → β) (p : OptParser α) : OptParser β := fun s =>
  match p s with
  | none => none
  | some (.ok v, s') => some (.ok (f v), s')
  | some (.error e, s') => some (.error e, s')

/-- `number()` as a grammar component. -/
def numberV : OptParser Value := liftV number Value.int

/-- `keyword(v)` as a grammar component. -/
def kwV (v : String) : OptParser Value := liftV (keyword v) Value.str

/-- `whitespace(n)` as a grammar component. -/
def wsV (n : Nat) : OptParser Value := liftV (whitespace n) Value.str

/-- The expression grammar of run.py (`expression = sum`), with the
grammar's indirect recursion `value → expression` made explicit by fuel:
`sum` is the concatenation of `value`, `whitespace()`, and zero-or-more
groups of `{+ or -, whitespace(), value}`, where `value` is the
alternation of `number()` and the recursive reference
`lambda e: expression(e)`.  The unreferenced `product` rule of run.py has
no influence on `expression` and is not modelled. -/
def expressionF : Nat → OptParser Value
  | 0 => fun _ => none
  | fuel+1 =>
    mapO Value.list (concatenation [
      alternation [numberV, expressionF fuel],
      wsV 0,
      mapO Value.list (zero_or_more (mapO Value.list (concatenation [
        alternation [kwV "+", kwV "-"],
        wsV 0,
        alternation [numberV, expressionF fuel]])) fuel)])

/-! Theorems.  Each claim of the specification gets one theorem below;
shared helper lemmas come first. -/

/-- Helper: a one-character string is never the empty string. -/
theorem one_char_ne_empty (c : Char) : String.mk [c] ≠ "" := by
  intro h
  have h2 := congrArg String.data h
  simp at h2

/-- Helper: the rollback wrapper passes a success through unchanged. -/
theorem rollback_ok (p : Parser α) (s : Stream) (v : α) (s' : Stream)
    (h : p s = (.ok v, s')) : rollback p s = (.ok v, s') := by
  simp [rollback, h]

/-- Helper: the rollback wrapper re-raises a NoMatch after seeking back. -/
theorem rollback_noMatch (p : Parser α) (s : Stream) (m : String) (s' : Stream)
    (h : p s = (.error (.noMatch m), s')) :
    rollback p s = (.error (.noMatch m), seek s.pos s') := by
  simp [rollback, h]

/-- Helper: the rollback wrapper re-raises an EndOfInput without seeking. -/
theorem rollback_eoi (p : Parser α) (s : Stream) (s' : Stream)
    (h : p s = (.error .endOfInput, s')) :
    rollback p s = (.error .endOfInput, s') := by
  simp [rollback, h]

/-- C1: for every predicate, if the primitive matcher fails with NoMatch,
the stream after the call is exactly the stream before it: the rejected
character's read is undone by the seek performed before the raise. -/
theorem match_noMatch_restores_offset (predicate : String → Bool) (rb : Bool)
    (s : Stream) (m : String) (s' : Stream)
    (h : matchF predicate rb s = (.error (.noMatch m), s')) : s' = s := by
  cases hg : s.data[s.pos]? with
  | none =>
    cases hp : predicate "" <;> cases rb <;>
      simp [matchF, read1, hg, hp] at h
  | some c =>
    cases hp : predicate (String.mk [c]) with
    | true => cases rb <;> simp [matchF, read1, hg, hp] at h
    | false =>
      simp [matchF, read1, hg, hp, one_char_ne_empty c, seek] at h
      exact h.2.symm

/-- C1 witness: rejecting the digit predicate on input "a" restores offset 0. -/
theorem match_noMatch_restores_offset_witness :
    matchF pyIsDigit false (mkStream "a") =
      (.error (.noMatch (couldNotMatch "a")), mkStream "a")
    ∧ mkStream "a" = mkStream "a" :=
  ⟨rfl, match_noMatch_restores_offset pyIsDigit false (mkStream "a")
    (couldNotMatch "a") (mkStream "a") rfl⟩

/-- C2: the rollback wrapper returns a success unchanged, re-raises a
NoMatch after seeking back to the offset recorded at invocation, and
re-raises an EndOfInput without restoring the offset. -/
theorem rollback_spec (p : Parser α) (s : Stream) :
    (∀ v s', p s = (.ok v, s') → rollback p s = (.ok v, s'))
    ∧ (∀ m s', p s = (.error (.noMatch m), s') →
        rollback p s = (.error (.noMatch m), seek s.pos s'))
    ∧ (∀ s', p s = (.error .endOfInput, s') →
        rollback p s = (.error .endOfInput, s')) :=
  ⟨fun v s' h => rollback_ok p s v s' h,
   fun m s' h => rollback_noMatch p s m s' h,
   fun s' h => rollback_eoi p s s' h⟩

/-- C2 witness: rollback around the digit matcher on input "a" (a NoMatch)
seeks back to the recorded offset. -/
theorem rollback_spec_witness :
    matchF pyIsDigit false (mkStream "a") =
      (.error (.noMatch (couldNotMatch "a")), mkStream "a")
    ∧ rollback (matchF pyIsDigit false) (mkStream "a") =
        (.error (.noMatch (couldNotMatch "a")),
         seek (mkStream "a").pos (mkStream "a")) :=
  ⟨rfl, (rollback_spec (matchF pyIsDigit false) (mkStream "a")).2.1
    (couldNotMatch "a") (mkStream "a") rfl⟩

/-- C5: the integer-literal parser on "123+456" at offset 0 fails with the
NoMatch raised by the peek-only whitespace check on the unseparated "+"
(not intercepted by `number`), and the rollback wrapper restores the
offset to 0 — the three digits already matched are given up. -/
theorem number_fails_on_operator_boundary :
    number (mkStream "123+456") =
      (.error (.noMatch (couldNotMatch "+")), mkStream "123+456") := rfl

/-- C6: the keyword parser for a literal either consumes exactly the
literal's length and returns the literal, or raises a NoMatch describing
the actual content read (including a short read at exhaustion) and the
expected literal, with the stream restored to the invocation state. -/
theorem keyword_atomic (v : String) (s : Stream) :
    keyword v s = (.ok v, ⟨s.data, s.pos + v.length⟩)
    ∨ ((readN v.length s).1 ≠ v ∧
        keyword v s = (.error (.noMatch ("Expected " ++ (readN v.length s).1 ++
          " to match " ++ v)), s)) := by
  by_cases h : v = (readN v.length s).1
  · left
    have hlen : ((s.data.drop s.pos).take v.length).length = v.length := by
      have h2 := congrArg String.length h
      simpa [readN] using h2.symm
    have h1 : keyword_raw v s = (.ok v, (readN v.length s).2) := by
      simp only [keyword_raw]
      rw [if_pos h]
    have h2 := rollback_ok (keyword_raw v) s v (readN v.length s).2 h1
    rw [keyword] at *
    rw [h2]
    simp [readN, hlen]
  · right
    refine ⟨fun h2 => h h2.symm, ?_⟩
    have h1 : keyword_raw v s =
        (.error (.noMatch ("Expected " ++ (readN v.length s).1 ++
          " to match " ++ v)), (readN v.length s).2) := by
      simp only [keyword_raw]
      rw [if_neg h]
    have h2 := rollback_noMatch (keyword_raw v) s _ (readN v.length s).2 h1
    rw [keyword] at *
    rw [h2]
    simp [readN, seek]

/-- C6 witness: `keyword("bla")` on "bla 123" consumes exactly three
characters and returns "bla". -/
theorem keyword_atomic_witness :
    keyword "bla" (mkStream "bla 123") =
      (.ok "bla", ⟨("bla 123").data, 3⟩) := by
  rcases keyword_atomic "bla" (mkStream "bla 123") with h | h
  · exact h
  · exact absurd rfl h.1

/-- C8 counterexample: the claim quantifies over every predicate, but the
code applies the predicate to the result of `read(1)`, which is the empty
string at exhaustion; a predicate accepting the empty string makes the
matcher succeed at end of input instead of failing with EndOfInput. -/
theorem match_eof_counterexample :
    matchF (fun _ => true) false (mkStream "") = (.ok "", mkStream "")
    ∧ (Except.ok "" : Except Failure String) ≠ Except.error Failure.endOfInput :=
  ⟨rfl, fun h => Except.noConfusion h⟩

/-- C8 (amended): for every predicate rejecting the empty read — as every
predicate used in run.py does — the primitive matcher invoked at end of
input fails with EndOfInput and leaves the stream unchanged, since the
empty read consumed nothing. -/
theorem match_eof (predicate : String → Bool) (rb : Bool) (s : Stream)
    (hpred : predicate "" = false) (hpos : s.data.length ≤ s.pos) :
    matchF predicate rb s = (.error .endOfInput, s) := by
  have hg : s.data[s.pos]? = none := by
    simpa using List.getElem?_eq_none hpos
  simp [matchF, read1, hg, hpred]

/-- C8 witness: the digit predicate rejects the empty read, so the matcher
on an empty stream fails with EndOfInput, offset unchanged. -/
theorem match_eof_witness :
    pyIsDigit "" = false
    ∧ matchF pyIsDigit false (mkStream "") = (.error .endOfInput, mkStream "") :=
  ⟨rfl, match_eof pyIsDigit false (mkStream "") rfl (by decide)⟩

/-- Helper: `number` as a grammar component rejects a leading alphabetic
character, restoring the stream, so `value` falls through to the
recursive `expression` reference at the same unchanged offset. -/
theorem numberV_abc :
    numberV (mkStream "abc") =
      some (.error (.noMatch (couldNotMatch "a")), mkStream "abc") := rfl

/-- C3: on the input "abc", whose first character is alphabetic, the
expression grammar re-enters `expression → sum → value → expression` at
the same unchanged offset: for every fuel the fueled embedding returns
`none`, i.e. the parse neither succeeds nor raises a failure — the source
recursion does not terminate. -/
theorem expression_diverges_on_nondigit (fuel : Nat) :
    expressionF fuel (mkStream "abc") = none := by
  induction fuel with
  | zero => rfl
  | succ n ih =>
    have hval : alternation [numberV, expressionF n] (mkStream "abc") = none := by
      simp [alternation, numberV_abc, ih]
    simp [expressionF, concatenation, mapO, hval]

/-- Helper: the `zero_or_more` loop never produces a NoMatch failure. -/
theorem zogo_never_noMatch (p : OptParser α) :
    ∀ fuel s acc r s', zero_or_more_go p fuel s acc = some (r, s') →
      ∀ m, r ≠ .error (.noMatch m) := by
  intro fuel
  induction fuel with
  | zero =>
    intro s acc r s' h
    simp [zero_or_more_go] at h
  | succ n ih =>
    intro s acc r s' h m
    rw [zero_or_more_go] at h
    cases hp : p s with
    | none => rw [hp] at h; simp at h
    | some res =>
      obtain ⟨r₀, s₀⟩ := res
      cases r₀ with
      | ok v =>
        rw [hp] at h
        exact ih s₀ (acc ++ [v]) r s' h m
      | error e =>
        cases e with
        | noMatch msg =>
          rw [hp] at h
          simp at h
          obtain ⟨h1, -⟩ := h
          subst h1
          simp
        | endOfInput =>
          rw [hp] at h
          simp at h
          obtain ⟨h1, -⟩ := h
          subst h1
          simp

/-- Helper: `accMap` composes by appending the accumulated prefixes. -/
theorem accMap_accMap (a b : List α) (x : Option (PResult (List α))) :
    accMap a (accMap b x) = accMap (a ++ b) x := by
  cases x with
  | none => rfl
  | some res =>
    obtain ⟨r, s⟩ := res
    cases r <;> simp [accMap]

/-- Helper: the `zero_or_more` loop with accumulator `acc` is the loop
with empty accumulator, its success value prefixed by `acc`. -/
theorem zogo_acc (p : OptParser α) :
    ∀ fuel s acc, zero_or_more_go p fuel s acc =
      accMap acc (zero_or_more_go p fuel s []) := by
  intro fuel
  induction fuel with
  | zero => intro s acc; simp [zero_or_more_go, accMap]
  | succ n ih =>
    intro s acc
    rw [zero_or_more_go, zero_or_more_go]
    cases hp : p s with
    | none => simp [accMap]
    | some res =>
      obtain ⟨r, s'⟩ := res
      cases r with
      | ok v =>
        show zero_or_more_go p n s' (acc ++ [v]) =
          accMap acc (zero_or_more_go p n s' ([] ++ [v]))
        rw [ih s' (acc ++ [v]), ih s' ([] ++ [v]), accMap_accMap]
        simp
      | error e => cases e <;> simp [accMap]

/-- Helper: an EndOfInput produced by the `zero_or_more` loop comes from
an invocation of the inner parser that failed with EndOfInput, the loop
re-raising it with the stream exactly as that invocation left it. -/
theorem zogo_eoi_source (p : OptParser α) :
    ∀ fuel s acc s', zero_or_more_go p fuel s acc =
        some (.error .endOfInput, s') →
      ∃ s₀, p s₀ = some (.error .endOfInput, s') := by
  intro fuel
  induction fuel with
  | zero =>
    intro s acc s' h
    simp [zero_or_more_go] at h
  | succ n ih =>
    intro s acc s' h
    rw [zero_or_more_go] at h
    cases hp : p s with
    | none => rw [hp] at h; simp at h
    | some res =>
      obtain ⟨r₀, s₀⟩ := res
      cases r₀ with
      | ok v =>
        rw [hp] at h
        exact ih s₀ (acc ++ [v]) s' h
      | error e =>
        cases e with
        | noMatch msg => rw [hp] at h; simp at h
        | endOfInput =>
          rw [hp] at h
          simp at h
          exact ⟨s, by rw [hp, h]⟩

/-- C4: `zero_or_more(P)` never fails with NoMatch: it returns `some`
results that are never a NoMatch; a NoMatch from `P` stops the loop and
the accumulated (possibly empty) successes are returned as success; a
success of `P` prepends its value to the rest of the repetition; the only
failure it can produce is an EndOfInput, which is exactly an EndOfInput
raised by `P` and propagated instead of yielding the partial sequence. -/
theorem zero_or_more_total (p : OptParser α) (fuel : Nat) (s : Stream) :
    (∀ r s', zero_or_more p fuel s = some (r, s') →
      ∀ m, r ≠ .error (.noMatch m))
    ∧ (∀ m s₁, p s = some (.error (.noMatch m), s₁) →
        zero_or_more p (fuel+1) s = some (.ok [], s₁))
    ∧ (∀ v s₁, p s = some (.ok v, s₁) →
        zero_or_more p (fuel+1) s = accMap [v] (zero_or_more p fuel s₁))
    ∧ (∀ s₁, p s = some (.error .endOfInput, s₁) →
        zero_or_more p (fuel+1) s = some (.error .endOfInput, s₁))
    ∧ (∀ s', zero_or_more p fuel s = some (.error .endOfInput, s') →
        ∃ s₀, p s₀ = some (.error .endOfInput, s')) := by
  refine ⟨?_, ?_, ?_, ?_, ?_⟩
  · intro r s' h m
    exact zogo_never_noMatch p fuel s [] r s' h m
  · intro m s₁ h
    simp [zero_or_more, zero_or_more_go, h]
  · intro v s₁ h
    show zero_or_more_go p (fuel+1) s [] = accMap [v] (zero_or_more_go p fuel s₁ [])
    rw [zero_or_more_go, h]
    simpa using zogo_acc p fuel s₁ [v]
  · intro s₁ h
    simp [zero_or_more, zero_or_more_go, h]
  · intro s' h
    exact zogo_eoi_source p fuel s [] s' h

/-- C4 witness: the inner parser `keyword("a")` fails with NoMatch on the
empty input, so one round of `zero_or_more` returns the empty list. -/
theorem zero_or_more_total_witness :
    liftO (keyword "a") (mkStream "") =
      some (.error (.noMatch "Expected  to match a"), mkStream "")
    ∧ zero_or_more (liftO (keyword "a")) 1 (mkStream "") =
        some (.ok [], mkStream "") :=
  ⟨rfl, (zero_or_more_total (liftO (keyword "a")) 0 (mkStream "")).2.1
    "Expected  to match a" (mkStream "") rfl⟩

/-- C7 counterexample: when every candidate fails, the message of the
raised NoMatch is "Exhausted all parsers" (capital E, run.py line 60),
not "exhausted all parsers" as the claim quotes it. -/
theorem alternation_message_counterexample :
    alternation [liftO (keyword "x"), liftO (keyword "x")] (mkStream "") =
      some (.error (.noMatch "Exhausted all parsers"), mkStream "")
    ∧ "Exhausted all parsers" ≠ "exhausted all parsers" :=
  ⟨rfl, by decide⟩

/-- C7 (amended): alternation tries its candidates in order: the first
success is returned unchanged (on an input where both candidates would
succeed, the first candidate's result is returned), a candidate failure
of either kind is swallowed and the next candidate runs on the stream the
failed candidate left (the same offset whenever the candidate honoured
the NoMatch-rollback contract); if every candidate fails, it fails with
`NoMatch("Exhausted all parsers")` — capital E, correcting the quoted
message of the claim. -/
theorem alternation_first_match (A B : OptParser α) (s : Stream) :
    (∀ v s', A s = some (.ok v, s') →
      alternation [A, B] s = some (.ok v, s'))
    ∧ (∀ e s₁ v s₂, A s = some (.error e, s₁) → B s₁ = some (.ok v, s₂) →
        alternation [A, B] s = some (.ok v, s₂))
    ∧ (∀ e₁ s₁ e₂ s₂, A s = some (.error e₁, s₁) → B s₁ = some (.error e₂, s₂) →
        alternation [A, B] s =
          some (.error (.noMatch "Exhausted all parsers"), s₂)) := by
  refine ⟨?_, ?_, ?_⟩
  · intro v s' h
    simp [alternation, h]
  · intro e s₁ v s₂ h1 h2
    simp [alternation, h1, h2]
  · intro e₁ s₁ e₂ s₂ h1 h2
    simp [alternation, h1, h2]

/-- C7 witness: on input "1" both `keyword("1")` and `whitespace(0)`
succeed; the alternation returns the first candidate's result. -/
theorem alternation_first_match_witness :
    liftO (keyword "1") (mkStream "1") = some (.ok "1", ⟨("1").data, 1⟩)
    ∧ liftO (whitespace 0) (mkStream "1") = some (.ok "", mkStream "1")
    ∧ alternation [liftO (keyword "1"), liftO (whitespace 0)] (mkStream "1") =
        some (.ok "1", ⟨("1").data, 1⟩) :=
  ⟨rfl, rfl,
   (alternation_first_match (liftO (keyword "1")) (liftO (whitespace 0))
     (mkStream "1")).1 "1" ⟨("1").data, 1⟩ rfl⟩

/-- C9: the expression grammar on "1 + 2" succeeds, consuming all five
characters, and returns the nested heterogeneous sequence
`[1, " ", [["+", " ", 2]]]` — an integer, the consumed whitespace string,
and the list of operator/whitespace/operand groups — not an evaluated
numeric value. -/
theorem expression_parses_one_plus_two :
    expressionF 10 (mkStream "1 + 2") =
      some (.ok (.list [.int 1, .str " ",
        .list [.list [.str "+", .str " ", .int 2]]]),
        ⟨("1 + 2").data, 5⟩) := rfl

/-- C10: invoking `one_or_more(P)` builds a generator and returns it at
once — the stream is untouched and no failure is raised at call time —
so `maybe(one_or_more(P))` always returns the generator, never the absent
marker, even when `P` can never succeed; `P` first runs, and the
`NoMatch("Expected one or more tokens")` for zero successes is first
raised, when the generator is consumed. -/
theorem one_or_more_lazy (p : Parser α) (s : Stream) (fuel : Nat) :
    one_or_more p s = (.ok ⟨p, s⟩, s)
    ∧ maybe (one_or_more p) s = (.ok (some ⟨p, s⟩), s)
    ∧ (∀ e s₁, p s = (.error e, s₁) →
        listGen (fuel+1) ⟨p, s⟩ =
          some (.error (.noMatch "Expected one or more tokens"), s₁)) := by
  refine ⟨rfl, rfl, ?_⟩
  intro e s₁ h
  simp [listGen, one_or_more_go, h]

/-- C10 witness: the digit matcher can never succeed on "x", yet consuming
the generator is what raises the NoMatch for zero successes. -/
theorem one_or_more_lazy_witness :
    matchF pyIsDigit false (mkStream "x") =
      (.error (.noMatch (couldNotMatch "x")), mkStream "x")
    ∧ listGen 1 ⟨matchF pyIsDigit false, mkStream "x"⟩ =
        some (.error (.noMatch "Expected one or more tokens"), mkStream "x") :=
  ⟨rfl, (one_or_more_lazy (matchF pyIsDigit false) (mkStream "x") 0).2.2
    (.noMatch (couldNotMatch "x")) (mkStream "x") rfl⟩

end FP
